import Mathlib

/-!
Verification of the "Saving and Loading Models" notebook (Chapter 7).

The notebook contains four sequential scripts:
* a tabular trainer: reads `titanic.csv`, keeps the columns
  `Survived, Age, Sex, Pclass`, one-hot-encodes `Sex` and `Pclass` with
  `pd.get_dummies`, drops rows with missing values with `dropna`, fits a
  logistic regression, pickles it;
* a tabular predictor: unpickles the model, builds a one-row DataFrame with
  hard-coded columns, calls `predict_proba(female)[0][1]`;
* a text-pipeline trainer: reads `reviews.csv`, drops duplicate rows, fits a
  `CountVectorizer(ngram_range=(1,2), stop_words='english', min_df=20)`
  followed by a logistic regression, pickles the pipeline;
* a text predictor in two forms: unpickling plus `predict_proba(...)[0][1]`,
  and an ONNX conversion followed by an `onnxruntime` inference session that
  takes `get_inputs()[0].name` and `get_outputs()[1].name`.

This file gives a shallow embedding of those scripts: data frames become
lists of rows with optional (possibly missing) cells, the pandas and
scikit-learn calls appearing in the notebook become Lean functions with the
library's documented semantics, pickling becomes an explicit token encoding
with a parser, and the ONNX session becomes a record of named input and
output tensors.  Probabilities are real numbers obtained by a logistic
sigmoid over rational scores; everything below the sigmoid is computable.
-/

namespace SavingLoadingModels

/-! ### Tabular trainer (notebook cell 2)

`df = df[['Survived', 'Age', 'Sex', 'Pclass']]` restricts to four columns,
so a raw row is modelled by those four cells, each possibly missing (NaN).
`Pclass` values are kept as the strings `get_dummies` uses in column names. -/

structure TitanicRow where
  survived : Option ℚ
  age : Option ℚ
  sex : Option String
  pclass : Option String
deriving DecidableEq, Repr

/-- A row after `pd.get_dummies(df, columns=['Sex', 'Pclass'])`: the two
categorical columns are replaced by indicator columns, one per observed
category.  Indicator cells are never missing. -/
structure EncodedRow where
  survived : Option ℚ
  age : Option ℚ
  sexDummies : List ℚ
  pclassDummies : List ℚ
deriving DecidableEq, Repr

/-- Indicator columns for one categorical value, one per category, in the
category order.  Following `pd.get_dummies` with its default
`dummy_na=False`, a missing value yields `0` in every indicator column. -/
def oneHot (cats : List String) (v : Option String) : List ℚ :=
  cats.map (fun c => if v = some c then 1 else 0)

/-- `pd.get_dummies(df, columns=['Sex', 'Pclass'])` applied to one row,
given the observed category lists of the two columns. -/
def getDummiesRow (sexCats pclassCats : List String) (r : TitanicRow) : EncodedRow :=
  ⟨r.survived, r.age, oneHot sexCats r.sex, oneHot pclassCats r.pclass⟩

/-- All cells of an encoded row, as the DataFrame stores them; indicator
cells are present (`some`) by construction. -/
def EncodedRow.cells (r : EncodedRow) : List (Option ℚ) :=
  r.survived :: r.age :: (r.sexDummies.map some ++ r.pclassDummies.map some)

/-- A row contains a missing value (NaN) in some cell. -/
def hasMissing (r : EncodedRow) : Bool :=
  r.cells.any (·.isNone)

/-- `df.dropna(inplace=True)`: keep exactly the rows with no missing cell. -/
def dropna (rows : List EncodedRow) : List EncodedRow :=
  rows.filter (fun r => !hasMissing r)

/-- The training table the tabular trainer passes to `model.fit`: column
selection, then `get_dummies`, then `dropna`, in the notebook's order. -/
def trainerRows (sexCats pclassCats : List String) (rows : List TitanicRow) :
    List EncodedRow :=
  dropna (rows.map (getDummiesRow sexCats pclassCats))

/-- The row-dropping rule as the specification states it: a row is removed
when any of the four retained columns `Survived, Age, Sex, Pclass` is
missing, including a missing `Sex` or `Pclass`. -/
def specTrainerRows (sexCats pclassCats : List String) (rows : List TitanicRow) :
    List EncodedRow :=
  (rows.filter (fun r =>
      r.survived.isSome && r.age.isSome && r.sex.isSome && r.pclass.isSome)).map
    (getDummiesRow sexCats pclassCats)

/-- A row with a missing `Sex` cell but all other retained columns present. -/
def missingSexRow : TitanicRow :=
  ⟨some 0, some 30, none, some "1"⟩

/-! ### Trainer feature columns and the tabular predictor (cells 2 and 4)

`get_dummies` keeps the untouched columns in place and appends the indicator
columns for each encoded column in turn, naming them `<col>_<category>` with
categories in sorted order; `x = df.drop('Survived', axis=1)` then removes
the label column. -/

/-- Column names of the trainer's DataFrame after `get_dummies`. -/
def trainerColumns (sexCats pclassCats : List String) : List String :=
  "Survived" :: "Age" ::
    (sexCats.map (fun c => "Sex_" ++ c) ++ pclassCats.map (fun c => "Pclass_" ++ c))

/-- Column names of `x = df.drop('Survived', axis=1)`, the feature table the
classifier is fitted on. -/
def trainerFeatureColumns (sexCats pclassCats : List String) : List String :=
  (trainerColumns sexCats pclassCats).filter (fun c => c ≠ "Survived")

/-- The hand-built one-row DataFrame of the tabular predictor (cell 4):
`pd.DataFrame({'Age': [30], 'Sex_female': [1], ...})`, as ordered
column-name/value pairs. -/
def femaleRow : List (String × ℚ) :=
  [("Age", 30), ("Sex_female", 1), ("Sex_male", 0),
   ("Pclass_1", 1), ("Pclass_2", 0), ("Pclass_3", 0)]

/-- The column names, in order, of the predictor's hand-built row. -/
def predictorColumns : List String := femaleRow.map Prod.fst

/-- A fitted binary logistic-regression model: the feature names seen at fit
time, one learned weight per feature, and an intercept. -/
structure TabularModel where
  schema : List String
  weights : List ℚ
  intercept : ℚ
deriving DecidableEq, Repr

/-- Dot product of a weight list with a feature list. -/
def dotQ (ws xs : List ℚ) : ℚ :=
  ((ws.zip xs).map (fun p => p.1 * p.2)).sum

/-- The logistic sigmoid, the link function of logistic regression. -/
noncomputable def sigmoid (z : ℝ) : ℝ :=
  1 / (1 + Real.exp (-z))

/-- Decision-function score of the model on a row of named features. -/
def tabularScore (m : TabularModel) (row : List (String × ℚ)) : ℚ :=
  dotQ m.weights (row.map Prod.snd) + m.intercept

/-- Probability of the positive class (`Survived = 1`). -/
noncomputable def tabularPosProb (m : TabularModel) (row : List (String × ℚ)) : ℝ :=
  sigmoid (tabularScore m row : ℚ)

/-- Modelled from the spec: the probability-inference call validates the
row's column names and order against the names seen at fit time and fails
with a schema-mismatch error on any difference, never coercing the row (the
check itself lives in scikit-learn, outside this repository). -/
def checkSchema (expected given : List String) : Except String Unit :=
  if given = expected then .ok () else
    .error "schema mismatch: feature names do not match those seen at fit"

/-- Modelled from the spec: `model.predict_proba(df)` for the binary
logistic-regression model; after the schema check it returns one row per
input row, `[P(class 0), P(class 1)]` with classes in sorted label order,
so index 0 is the negative and index 1 the positive class. -/
noncomputable def predictProbaTabular (m : TabularModel)
    (row : List (String × ℚ)) : Except String (List (List ℝ)) :=
  match checkSchema m.schema (row.map Prod.fst) with
  | .error e => .error e
  | .ok _ => .ok [[1 - tabularPosProb m row, tabularPosProb m row]]

/-- The tabular predictor's expression `model.predict_proba(female)[0][1]`. -/
noncomputable def survivalProbability (m : TabularModel)
    (row : List (String × ℚ)) : Except String ℝ :=
  (predictProbaTabular m row).map (fun rows => (rows.getD 0 []).getD 1 0)

/-! ### Text pipeline trainer (cell 6)

`CountVectorizer(ngram_range=(1, 2), stop_words='english', min_df=20)`:
documents are modelled at the token level (a document is its token list);
the vectorizer removes stop words, forms unigrams and bigrams over the
remaining tokens, and keeps an n-gram in the vocabulary exactly when its
document frequency reaches `min_df`. -/

/-- An n-gram: a list of one (unigram) or two (bigram) tokens. -/
abbrev Ngram := List String

/-- Stop-word removal, applied to a token list before n-grams are formed. -/
def removeStopWords (sw : List String) (doc : List String) : List String :=
  doc.filter (fun t => decide (t ∉ sw))

/-- The unigrams of a token list. -/
def unigrams (doc : List String) : List Ngram :=
  doc.map (fun t => [t])

/-- The bigrams (adjacent token pairs) of a token list. -/
def bigrams : List String → List Ngram
  | a :: b :: rest => [a, b] :: bigrams (b :: rest)
  | _ => []

/-- Modelled from the spec: the analyzer of the vectorizer with
`ngram_range=(1, 2)` and English stop words — all unigrams and bigrams of
the stop-word-filtered token list (the analyzer itself lives in
scikit-learn, outside this repository). -/
def docNgrams (sw : List String) (doc : List String) : List Ngram :=
  unigrams (removeStopWords sw doc) ++ bigrams (removeStopWords sw doc)

/-- Number of training documents in which an n-gram occurs. -/
def docFrequency (sw : List String) (g : Ngram) (docs : List (List String)) : ℕ :=
  (docs.filter (fun d => decide (g ∈ docNgrams sw d))).length

/-- Every n-gram occurring in some training document, without repetition. -/
def allNgrams (sw : List String) (docs : List (List String)) : List Ngram :=
  ((docs.map (docNgrams sw)).flatten).dedup

/-- Modelled from the spec: the vocabulary the vectorizer learns at fit
time — the n-grams of the training documents whose document frequency is at
least `min_df`. -/
def vocabulary (sw : List String) (minDf : ℕ) (docs : List (List String)) :
    List Ngram :=
  (allNgrams sw docs).filter (fun g => decide (minDf ≤ docFrequency sw g docs))

/-- The fitted sentiment pipeline `make_pipeline(vectorizer, model)`: the
vectorizer's stop-word list and learned vocabulary, and the classifier's
weights (one per vocabulary entry) and intercept. -/
structure SentimentPipeline where
  stopWords : List String
  vocab : List Ngram
  weights : List ℚ
  intercept : ℚ
deriving DecidableEq, Repr

/-- Stage 1 at predict time: count each vocabulary n-gram in the document. -/
def featureVector (p : SentimentPipeline) (doc : List String) : List ℚ :=
  p.vocab.map (fun g => ((docNgrams p.stopWords doc).count g : ℚ))

/-- Stage 2 decision-function score on the stage-1 features. -/
def pipelineScore (p : SentimentPipeline) (doc : List String) : ℚ :=
  dotQ p.weights (featureVector p doc) + p.intercept

/-- Probability of positive sentiment for one document. -/
noncomputable def pipelinePosProb (p : SentimentPipeline) (doc : List String) : ℝ :=
  sigmoid (pipelineScore p doc : ℚ)

/-- Modelled from the spec: `pipe.predict_proba(docs)` — one row per
document, `[P(negative), P(positive)]` with classes in sorted label order. -/
noncomputable def pipelinePredictProba (p : SentimentPipeline)
    (docs : List (List String)) : List (List ℝ) :=
  docs.map (fun d => [1 - pipelinePosProb p d, pipelinePosProb p d])

/-- The text predictor's expression `pipe.predict_proba([text])[0][1]`. -/
noncomputable def sentimentProbability (p : SentimentPipeline)
    (doc : List String) : ℝ :=
  ((pipelinePredictProba p [doc]).getD 0 []).getD 1 0

/-- `df.drop_duplicates()` with its default `keep='first'`: keep the first
occurrence of each row, in order, and drop later duplicates. -/
def dropDuplicates {α : Type} [DecidableEq α] : List α → List α
  | [] => []
  | x :: xs => x :: (dropDuplicates xs).filter (fun y => decide (y ≠ x))

/-- The training table the text trainer fits on: the `(Text, Sentiment)`
rows of `reviews.csv` after `df.drop_duplicates()`. -/
def sentimentTrainingRows (rows : List (String × String)) :
    List (String × String) :=
  dropDuplicates rows

/-! ### Generic serialization (cells 2, 4, 6, 8)

`pickle.dump` / `pickle.load` serialize the fitted object to a byte stream
and reconstruct it.  Modelled from the spec (pickle lives outside this
repository): the artifact is a token stream encoding every learned field,
length-prefixed, and deserialization parses the stream back. -/

/-- One token of a serialized artifact. -/
inductive PickleToken where
  | str (s : String)
  | rat (q : ℚ)
  | nat (n : ℕ)
deriving DecidableEq, Repr

/-- Serialize the tabular model: length-prefixed schema, length-prefixed
weights, intercept. -/
def serializeTabular (m : TabularModel) : List PickleToken :=
  (PickleToken.nat m.schema.length :: m.schema.map PickleToken.str)
    ++ (PickleToken.nat m.weights.length :: m.weights.map PickleToken.rat)
    ++ [PickleToken.rat m.intercept]

/-- Read `n` string tokens from the stream. -/
def readStrs : ℕ → List PickleToken → Option (List String × List PickleToken)
  | 0, ts => some ([], ts)
  | n + 1, PickleToken.str s :: ts =>
      match readStrs n ts with
      | some (l, rest) => some (s :: l, rest)
      | none => none
  | _ + 1, _ => none

/-- Read `n` rational tokens from the stream. -/
def readRats : ℕ → List PickleToken → Option (List ℚ × List PickleToken)
  | 0, ts => some ([], ts)
  | n + 1, PickleToken.rat q :: ts =>
      match readRats n ts with
      | some (l, rest) => some (q :: l, rest)
      | none => none
  | _ + 1, _ => none

/-- Read `n` length-prefixed n-grams from the stream. -/
def readNgrams : ℕ → List PickleToken → Option (List Ngram × List PickleToken)
  | 0, ts => some ([], ts)
  | n + 1, PickleToken.nat k :: ts =>
      match readStrs k ts with
      | some (g, ts1) =>
          match readNgrams n ts1 with
          | some (gs, ts2) => some (g :: gs, ts2)
          | none => none
      | none => none
  | _ + 1, _ => none

/-- Deserialize a tabular-model artifact; fails on any malformed stream. -/
def deserializeTabular (ts : List PickleToken) : Option TabularModel :=
  match ts with
  | PickleToken.nat n :: ts1 =>
      match readStrs n ts1 with
      | some (schema, PickleToken.nat k :: ts2) =>
          match readRats k ts2 with
          | some (ws, [PickleToken.rat b]) => some ⟨schema, ws, b⟩
          | _ => none
      | _ => none
  | _ => none

/-- Serialize the sentiment pipeline: stop words, vocabulary (each n-gram
length-prefixed), weights, intercept. -/
def serializePipeline (p : SentimentPipeline) : List PickleToken :=
  (PickleToken.nat p.stopWords.length :: p.stopWords.map PickleToken.str)
    ++ (PickleToken.nat p.vocab.length ::
          (p.vocab.map
            (fun g => PickleToken.nat g.length :: g.map PickleToken.str)).flatten)
    ++ (PickleToken.nat p.weights.length :: p.weights.map PickleToken.rat)
    ++ [PickleToken.rat p.intercept]

/-- Deserialize a pipeline artifact; fails on any malformed stream. -/
def deserializePipeline (ts : List PickleToken) : Option SentimentPipeline :=
  match ts with
  | PickleToken.nat n :: ts1 =>
      match readStrs n ts1 with
      | some (sw, PickleToken.nat v :: ts2) =>
          match readNgrams v ts2 with
          | some (vocab, PickleToken.nat k :: ts3) =>
              match readRats k ts3 with
              | some (ws, [PickleToken.rat b]) => some ⟨sw, vocab, ws, b⟩
              | _ => none
          | _ => none
      | _ => none
  | _ => none

/-! ### Portable graph inference (cells 10 and 12)

`convert_sklearn` declares the input tensor `string_input` and two named
outputs (predicted label and class probabilities).  The inference cell does
`input_name = session.get_inputs()[0].name` and
`label_name = session.get_outputs()[1].name`. -/

/-- What a declared output tensor of the graph carries. -/
inductive TensorKind where
  | label
  | probability
deriving DecidableEq, Repr

/-- A declared output tensor: its name and what it carries. -/
structure TensorInfo where
  name : String
  kind : TensorKind
deriving DecidableEq, Repr

/-- A loaded inference session: the declared input tensor names and the
declared output tensors, in graph order. -/
structure OnnxSession where
  inputNames : List String
  outputs : List TensorInfo
deriving DecidableEq, Repr

/-- `session.get_inputs()[0].name`. -/
def inputName (s : OnnxSession) : Option String :=
  s.inputNames.get? 0

/-- The output tensor the script queries: `session.get_outputs()[1]`. -/
def queriedOutput (s : OnnxSession) : Option TensorInfo :=
  s.outputs.get? 1

/-- `label_name = session.get_outputs()[1].name`, the name passed to
`session.run`. -/
def selectedOutputName (s : OnnxSession) : Option String :=
  (queriedOutput s).map TensorInfo.name

/-- The session skl2onnx produces for the sentiment pipeline: outputs are
`output_label` then `output_probability`. -/
def sentimentSession : OnnxSession :=
  ⟨["string_input"],
   [⟨"output_label", TensorKind.label⟩,
    ⟨"output_probability", TensorKind.probability⟩]⟩

/-- The same declared outputs in the opposite order. -/
def swappedSession : OnnxSession :=
  ⟨["string_input"],
   [⟨"output_probability", TensorKind.probability⟩,
    ⟨"output_label", TensorKind.label⟩]⟩

/-! ### Recorded cross-format outputs (cells 8 and 12)

The probabilities the notebook records for the query
`'Great food and excellent service!'` in the two forms. -/

/-- Output of cell 8: the pickled pipeline's probability. -/
def genericFormProbability : ℚ := 0.8826906828210357

/-- Output of cell 12: the ONNX session's probability. -/
def portableFormProbability : ℚ := 0.8826906681060791

/-! ### File handles opened by the notebook -/

/-- How a script opens a file: inside a `with` block, or as a bare `open(...)`
expression with no explicit close. -/
inductive OpenStyle where
  | withBlock
  | bareOpen
deriving DecidableEq, Repr

/-- One file-open occurrence in the notebook. -/
structure FileOpen where
  path : String
  mode : String
  style : OpenStyle
deriving DecidableEq, Repr

/-- Every file open in the notebook, in order: the four pickle calls pass
`open(path, mode)` inline, only the ONNX write uses `with open(...) as f`. -/
def notebookFileOpens : List FileOpen :=
  [⟨"titanic.pkl", "wb", OpenStyle.bareOpen⟩,
   ⟨"titanic.pkl", "rb", OpenStyle.bareOpen⟩,
   ⟨"sentiment.pkl", "wb", OpenStyle.bareOpen⟩,
   ⟨"sentiment.pkl", "rb", OpenStyle.bareOpen⟩,
   ⟨"sentiment.onnx", "wb", OpenStyle.withBlock⟩]

/-- A handle is guaranteed closed (on success or failure) exactly when its
acquisition is scoped by a `with` block; a bare `open(...)` is closed only
when the interpreter happens to reclaim the object. -/
def guaranteedClosed (f : FileOpen) : Bool :=
  decide (f.style = OpenStyle.withBlock)

/-! ### Concrete instances used to exercise the theorems -/

/-- A tabular model fitted on the predictor's schema, with arbitrary
concrete weights. -/
def titanicWitnessModel : TabularModel :=
  ⟨predictorColumns, [1, -2, 3, 0, 1, -1], 2⟩

/-- A sentiment pipeline with a one-entry vocabulary. -/
def sentimentWitnessPipeline : SentimentPipeline :=
  ⟨["the"], [["good"]], [2], -1⟩

/-! ## Theorems -/

theorem any_isNone_map_some {α : Type} (l : List α) :
    (l.map some).any (·.isNone) = false := by
  induction l <;> simp_all

theorem hasMissing_getDummies (sc pc : List String) (r : TitanicRow) :
    hasMissing (getDummiesRow sc pc r) = (r.survived.isNone || r.age.isNone) := by
  simp only [hasMissing, getDummiesRow, EncodedRow.cells, List.any_cons,
    List.any_append, any_isNone_map_some]
  simp

/-- C2 counterexample: the notebook runs `dropna` after `get_dummies`, so a
row whose `Sex` cell is missing is encoded with all-zero indicator columns
and survives `dropna`, while the claim says it is removed: on the one-row
table `[missingSexRow]` the trainer and the claimed behaviour disagree. -/
theorem tabular_dropna_claim_false :
    trainerRows ["female", "male"] ["1", "2", "3"] [missingSexRow] ≠
      specTrainerRows ["female", "male"] ["1", "2", "3"] [missingSexRow] := by
  decide

/-- C2 (amended): because `dropna` runs after `get_dummies` has replaced
`Sex` and `Pclass` by never-missing indicator columns, the trainer removes
exactly those rows with a missing `Survived` or `Age` cell; rows with a
missing `Sex` or `Pclass` are retained (with all-zero indicators). -/
theorem tabular_trainer_dropna_exact (sc pc : List String)
    (rows : List TitanicRow) :
    trainerRows sc pc rows =
      (rows.filter (fun r => r.survived.isSome && r.age.isSome)).map
        (getDummiesRow sc pc) := by
  induction rows with
  | nil => rfl
  | cons r rs ih =>
    simp only [trainerRows, dropna, List.map_cons, List.filter_cons,
      hasMissing_getDummies] at *
    cases hs : r.survived <;> cases ha : r.age <;>
      simp_all [trainerRows, dropna]

theorem sigmoid_nonneg (z : ℝ) : 0 ≤ sigmoid z := by
  have h := Real.exp_pos (-z)
  unfold sigmoid
  positivity

theorem sigmoid_le_one (z : ℝ) : sigmoid z ≤ 1 := by
  have h := Real.exp_pos (-z)
  unfold sigmoid
  rw [div_le_one (by linarith)]
  linarith

/-- C6: on a row matching the fitted schema, the tabular predictor's
`model.predict_proba(female)[0][1]` returns exactly the positive-class
probability (index 1 of the first result row, with index 0 the negative
class), and the text predictor's `pipe.predict_proba([text])[0][1]`
likewise; both values lie in `[0, 1]`. -/
theorem predictors_return_positive_class_probability
    (m : TabularModel) (row : List (String × ℚ)) (p : SentimentPipeline)
    (doc : List String) (h : row.map Prod.fst = m.schema) :
    survivalProbability m row = .ok (tabularPosProb m row) ∧
    0 ≤ tabularPosProb m row ∧ tabularPosProb m row ≤ 1 ∧
    sentimentProbability p doc = pipelinePosProb p doc ∧
    0 ≤ pipelinePosProb p doc ∧ pipelinePosProb p doc ≤ 1 := by
  refine ⟨?_, sigmoid_nonneg _, sigmoid_le_one _, ?_, sigmoid_nonneg _,
    sigmoid_le_one _⟩
  · simp [survivalProbability, predictProbaTabular, checkSchema, h, Except.map]
  · simp [sentimentProbability, pipelinePredictProba]

theorem predictors_return_positive_class_probability_witness :
    survivalProbability titanicWitnessModel femaleRow =
      .ok (tabularPosProb titanicWitnessModel femaleRow) ∧
    0 ≤ tabularPosProb titanicWitnessModel femaleRow ∧
    tabularPosProb titanicWitnessModel femaleRow ≤ 1 ∧
    sentimentProbability sentimentWitnessPipeline ["good"] =
      pipelinePosProb sentimentWitnessPipeline ["good"] ∧
    0 ≤ pipelinePosProb sentimentWitnessPipeline ["good"] ∧
    pipelinePosProb sentimentWitnessPipeline ["good"] ≤ 1 :=
  predictors_return_positive_class_probability titanicWitnessModel femaleRow
    sentimentWitnessPipeline ["good"] (by decide)

/-- C5: feeding the tabular predictor's probability-inference call a row
whose column names or order differ from the fitted schema fails with a
schema-mismatch error; the row is never coerced into the schema. -/
theorem tabular_schema_mismatch_fails (m : TabularModel)
    (row : List (String × ℚ)) (h : row.map Prod.fst ≠ m.schema) :
    predictProbaTabular m row =
      .error "schema mismatch: feature names do not match those seen at fit" := by
  simp [predictProbaTabular, checkSchema, h]

theorem tabular_schema_mismatch_fails_witness :
    predictProbaTabular titanicWitnessModel (femaleRow.drop 1) =
      .error "schema mismatch: feature names do not match those seen at fit" :=
  tabular_schema_mismatch_fails titanicWitnessModel (femaleRow.drop 1)
    (by decide)

/-- C10: with the Titanic categories (`Sex` ∈ {female, male},
`Pclass` ∈ {1, 2, 3} in sorted order), the trainer's feature columns after
one-hot encoding are exactly the predictor's hard-coded columns, in the
same order; hence on any model fitted to that schema the predictor's
inference call passes the schema check and the mismatch branch is
unreachable. -/
theorem predictor_schema_matches_trainer (sc pc : List String)
    (hs : sc = ["female", "male"]) (hp : pc = ["1", "2", "3"]) :
    trainerFeatureColumns sc pc = predictorColumns ∧
    ∀ m : TabularModel, m.schema = trainerFeatureColumns sc pc →
      predictProbaTabular m femaleRow =
        .ok [[1 - tabularPosProb m femaleRow, tabularPosProb m femaleRow]] := by
  subst hs hp
  refine ⟨by decide, ?_⟩
  intro m hm
  have h : femaleRow.map Prod.fst = m.schema := by
    rw [hm]; decide
  simp [predictProbaTabular, checkSchema, h]

theorem predictor_schema_matches_trainer_witness :
    trainerFeatureColumns ["female", "male"] ["1", "2", "3"] =
      predictorColumns ∧
    predictProbaTabular titanicWitnessModel femaleRow =
      .ok [[1 - tabularPosProb titanicWitnessModel femaleRow,
            tabularPosProb titanicWitnessModel femaleRow]] := by
  have h := predictor_schema_matches_trainer ["female", "male"] ["1", "2", "3"]
    rfl rfl
  exact ⟨h.1, h.2 titanicWitnessModel (by rw [h.1]; rfl)⟩

/-- C1 counterexample: the inference cell takes `get_outputs()[1].name`
unconditionally, so on a graph whose declared outputs are ordered with the
class-probability tensor first it queries the label output, not the
probability output — the script does not discover which output carries the
probabilities. -/
theorem onnx_output_selection_claim_false :
    ¬ ∀ s : OnnxSession,
        (∃ t ∈ s.outputs, t.kind = TensorKind.probability) →
        (queriedOutput s).map TensorInfo.kind = some TensorKind.probability := by
  intro h
  have hc := h swappedSession
    ⟨⟨"output_probability", TensorKind.probability⟩, by decide, rfl⟩
  exact absurd hc (by decide)

/-- C1 (amended): the session resolves the input and output tensor names
dynamically from the loaded graph (no name is hard-coded), but at the fixed
indices 0 and 1; it queries the class-probability output exactly when that
output is declared at index 1, as in the ordering skl2onnx emits
(`output_label` then `output_probability`). -/
theorem onnx_fixed_index_output_selection (s : OnnxSession) (n : String)
    (lbl prob : TensorInfo) (hi : s.inputNames = [n])
    (ho : s.outputs = [lbl, prob]) (hk : prob.kind = TensorKind.probability) :
    inputName s = some n ∧
    selectedOutputName s = some prob.name ∧
    (queriedOutput s).map TensorInfo.kind = some TensorKind.probability := by
  refine ⟨?_, ?_, ?_⟩ <;>
    simp [inputName, selectedOutputName, queriedOutput, hi, ho, hk]

theorem onnx_fixed_index_output_selection_witness :
    inputName sentimentSession = some "string_input" ∧
    selectedOutputName sentimentSession = some "output_probability" ∧
    (queriedOutput sentimentSession).map TensorInfo.kind =
      some TensorKind.probability :=
  onnx_fixed_index_output_selection sentimentSession "string_input"
    ⟨"output_label", TensorKind.label⟩
    ⟨"output_probability", TensorKind.probability⟩ rfl rfl rfl

/-- C9 counterexample: not every file handle the notebook opens is scoped:
the very first open, `pickle.dump(model, open('titanic.pkl', 'wb'))`, is a
bare `open(...)` expression with no `with` block and no explicit close. -/
theorem file_handles_claim_false :
    ¬ notebookFileOpens.all guaranteedClosed = true := by
  decide

/-- C9 (amended): of the five file handles the notebook opens, only the
portable-graph output (`sentiment.onnx`, opened in a `with` block) is
guaranteed closed; the four pickle handles — both serialization outputs and
both deserialization inputs — are bare `open(...)` calls that are never
explicitly closed. -/
theorem file_handles_amended :
    notebookFileOpens.filter guaranteedClosed =
      [⟨"sentiment.onnx", "wb", OpenStyle.withBlock⟩] ∧
    (notebookFileOpens.filter (fun f => !guaranteedClosed f)).map FileOpen.path =
      ["titanic.pkl", "titanic.pkl", "sentiment.pkl", "sentiment.pkl"] := by
  decide

/-- C4: the probabilities the notebook records for
`'Great food and excellent service!'` in the two forms differ by well under
`1e-4` without being identical: the portable-graph form is numerically
close, not bit-identical, to the generic form. -/
theorem cross_format_probability_close :
    |genericFormProbability - portableFormProbability| ≤ 1 / 10000 ∧
    genericFormProbability ≠ portableFormProbability := by
  constructor <;>
    norm_num [abs_le, genericFormProbability, portableFormProbability]

theorem mem_dropDuplicates {α : Type} [DecidableEq α] (l : List α) (a : α) :
    a ∈ dropDuplicates l ↔ a ∈ l := by
  induction l with
  | nil => simp [dropDuplicates]
  | cons x xs ih =>
    by_cases hx : a = x <;>
      simp_all [dropDuplicates, List.mem_filter]

theorem nodup_dropDuplicates {α : Type} [DecidableEq α] (l : List α) :
    (dropDuplicates l).Nodup := by
  induction l with
  | nil => simp [dropDuplicates]
  | cons x xs ih =>
    refine List.nodup_cons.2 ⟨?_, ih.filter _⟩
    simp [List.mem_filter]

/-- C8: the text trainer's `df.drop_duplicates()` leaves a training table
with no duplicate `(Text, Sentiment)` row, containing exactly the distinct
rows of the input, each exactly once. -/
theorem drop_duplicates_collapses (rows : List (String × String)) :
    (sentimentTrainingRows rows).Nodup ∧
    ∀ r, r ∈ sentimentTrainingRows rows ↔ r ∈ rows :=
  ⟨nodup_dropDuplicates rows, fun r => mem_dropDuplicates rows r⟩

theorem readStrs_encode (l : List String) (rest : List PickleToken) :
    readStrs l.length (l.map PickleToken.str ++ rest) = some (l, rest) := by
  induction l with
  | nil => rfl
  | cons s ss ih => simp [readStrs, ih]

theorem readRats_encode (l : List ℚ) (rest : List PickleToken) :
    readRats l.length (l.map PickleToken.rat ++ rest) = some (l, rest) := by
  induction l with
  | nil => rfl
  | cons q qs ih => simp [readRats, ih]

theorem readNgrams_encode (v : List Ngram) (rest : List PickleToken) :
    readNgrams v.length
      ((v.map (fun g => PickleToken.nat g.length :: g.map PickleToken.str)).flatten
        ++ rest) = some (v, rest) := by
  induction v with
  | nil => rfl
  | cons g gs ih =>
    simp [readNgrams, readStrs_encode, ih]

theorem deserialize_serialize_tabular (m : TabularModel) :
    deserializeTabular (serializeTabular m) = some m := by
  obtain ⟨schema, ws, b⟩ := m
  simp [serializeTabular, deserializeTabular, readStrs_encode, readRats_encode]

theorem deserialize_serialize_pipeline (p : SentimentPipeline) :
    deserializePipeline (serializePipeline p) = some p := by
  obtain ⟨sw, vocab, ws, b⟩ := p
  simp [serializePipeline, deserializePipeline, readStrs_encode,
    readNgrams_encode, readRats_encode]

/-- C3: deserializing the artifact produced by serializing a fitted model
reconstructs the model exactly — for the two-stage pipeline including its
learned vocabulary and weights — so its probability predictions on every
input agree with the original's within the `1e-6` tolerance (the difference
is zero). -/
theorem pickle_round_trip (m : TabularModel) (p : SentimentPipeline) :
    (∃ m2, deserializeTabular (serializeTabular m) = some m2 ∧
      ∀ row : List (String × ℚ),
        |tabularPosProb m2 row - tabularPosProb m row| ≤ 1 / 1000000) ∧
    ∃ p2, deserializePipeline (serializePipeline p) = some p2 ∧
      p2.vocab = p.vocab ∧ p2.weights = p.weights ∧
      ∀ doc : List String,
        |pipelinePosProb p2 doc - pipelinePosProb p doc| ≤ 1 / 1000000 := by
  refine ⟨⟨m, deserialize_serialize_tabular m, fun row => ?_⟩,
    ⟨p, deserialize_serialize_pipeline p, rfl, rfl, fun doc => ?_⟩⟩ <;>
    simp

theorem mem_removeStopWords {sw doc : List String} {w : String}
    (h : w ∈ removeStopWords sw doc) : w ∈ doc ∧ w ∉ sw := by
  simpa [removeStopWords] using h

theorem mem_bigrams_subset :
    ∀ (l : List String) (g : Ngram), g ∈ bigrams l → ∀ w ∈ g, w ∈ l
  | [], g, hg, _, _ => absurd hg (by simp [bigrams])
  | [_], g, hg, _, _ => absurd hg (by simp [bigrams])
  | a :: b :: rest, g, hg, w, hw => by
      rcases List.mem_cons.mp (by simpa [bigrams] using hg) with h | h
      · subst h
        rcases List.mem_cons.mp hw with h | h
        · simp [h]
        · simp only [List.mem_cons]
          right
          simpa using Or.inl (by simpa using h)
      · exact List.mem_cons_of_mem a (mem_bigrams_subset (b :: rest) g h w hw)

theorem mem_docNgrams_not_stop {sw doc : List String} {g : Ngram}
    (hg : g ∈ docNgrams sw doc) : ∀ w ∈ g, w ∈ doc ∧ w ∉ sw := by
  intro w hw
  rcases List.mem_append.mp hg with h | h
  · rcases List.mem_map.mp (by simpa [unigrams] using h) with ⟨t, ht, rfl⟩
    have hwt : w = t := by simpa using hw
    subst hwt
    exact mem_removeStopWords ht
  · exact mem_removeStopWords (mem_bigrams_subset _ g h w hw)

/-- C7: every n-gram in the learned vocabulary occurs in at least 20
training documents, none of its tokens is a stop word, and it occurs in
some training document — so no n-gram below the `min_df=20` cutoff or built
from a stop word enters the vocabulary, which is learned from the training
data only. -/
theorem vocabulary_exclusion (sw : List String) (docs : List (List String))
    (g : Ngram) (hg : g ∈ vocabulary sw 20 docs) :
    20 ≤ docFrequency sw g docs ∧
    (∀ w ∈ g, w ∉ sw) ∧
    ∃ d ∈ docs, g ∈ docNgrams sw d := by
  have h1 : g ∈ allNgrams sw docs ∧ 20 ≤ docFrequency sw g docs := by
    simpa [vocabulary, List.mem_filter] using hg
  obtain ⟨hall, hdf⟩ := h1
  have h2 : ∃ d ∈ docs, g ∈ docNgrams sw d := by
    simpa [allNgrams, List.mem_dedup, List.mem_flatten, List.mem_map]
      using hall
  obtain ⟨d, hd, hgd⟩ := h2
  exact ⟨hdf, fun w hw => (mem_docNgrams_not_stop hgd w hw).2, d, hd, hgd⟩

theorem vocabulary_exclusion_witness :
    20 ≤ docFrequency ["the"] ["a"] (List.replicate 20 ["a"]) :=
  (vocabulary_exclusion ["the"] (List.replicate 20 ["a"]) ["a"] (by decide)).1

end SavingLoadingModels
